import Mathlib

/-!
# Verification of `SceneManager.cpp` (CS330 OpenGL scene-assembly layer)

A shallow embedding of the `SceneManager` class from
`OpenGL Project/Project/Source/SceneManager.cpp`.  C++ floats are modelled
as rationals (`ℚ`), the fixed texture array as a total map `Nat → TEXTURE_ID`
together with the count `m_loadedTextures`, and all calls into the external
OpenGL / `ShaderManager` API as an emitted event trace (`GLEvent`).
The image decoder `stbi_load` is modelled as an environment
`String → Option Image` mapping a filename to the decoded image, `none`
meaning the file cannot be loaded.
-/

namespace SceneManager

/-- A triple of floats, modelling `glm::vec3`. -/
structure Vec3 where
  x : ℚ
  y : ℚ
  z : ℚ
deriving DecidableEq, Repr

/-- A quadruple of floats, modelling `glm::vec4` (rgba color). -/
structure Vec4 where
  r : ℚ
  g : ℚ
  b : ℚ
  a : ℚ
deriving DecidableEq, Repr

/-- One texture-registry entry: OpenGL texture name plus the lookup tag
(the `TEXTURE_ID` struct declared in `SceneManager.h`). -/
structure TEXTURE_ID where
  ID : Nat
  tag : String
deriving DecidableEq, Repr

/-- One material-registry entry (the `OBJECT_MATERIAL` struct declared in
`SceneManager.h`): ambient color/strength, diffuse and specular colors,
shininess exponent, and the lookup tag. -/
structure OBJECT_MATERIAL where
  ambientColor : Vec3
  ambientStrength : ℚ
  diffuseColor : Vec3
  specularColor : Vec3
  shininess : ℚ
  tag : String
deriving DecidableEq, Repr

/-- A decoded image as returned by `stbi_load`: dimensions and the number
of color channels. -/
structure Image where
  width : Int
  height : Int
  colorChannels : Int
deriving DecidableEq, Repr

/-- The primitive mesh kinds drawable through the external `ShapeMeshes`
collaborator (`DrawPlaneMesh`, `DrawCylinderMesh`, ...). -/
inductive MeshKind where
  | plane
  | cylinder
  | taperedCylinder
  | torus
  | box
  | prism
deriving DecidableEq, Repr

/-- Observable calls into the external OpenGL / `ShaderManager` API,
recorded as an event trace.  `setMat4Model` stands for
`setMat4Value("model", modelView)`: the matrix
`translation * rotationX * rotationY * rotationZ * scale` is a pure
function of the five transform parameters (computed by glm, external to
this file), so the event carries those parameters. -/
inductive GLEvent where
  | setMat4Model (scaleXYZ : Vec3) (xDeg yDeg zDeg : ℚ) (positionXYZ : Vec3)
  | setIntValue (name : String) (value : Int)
  | setBoolValue (name : String) (value : Bool)
  | setVec2Value (name : String) (u v : ℚ)
  | setVec3Value (name : String) (v : Vec3)
  | setVec4Value (name : String) (v : Vec4)
  | setFloatValue (name : String) (value : ℚ)
  | setSampler2DValue (name : String) (value : Int)
  | drawMesh (kind : MeshKind)
  | glActiveTexture (unit : Nat)
  | glBindTexture2D (textureID : Nat)
  | glGenTexturesCall (newID : Nat)
  | glDeleteTexturesCall (textureID : Nat)
  | glTexParameteriCall (pname param : Nat)
  | glTexImage2DCall (internalFormat : Nat) (width height : Int) (format : Nat)
  | glGenerateMipmapCall
  | log (message : String)
deriving DecidableEq, Repr

/-- OpenGL enumeration constants used by the source. -/
def GL_TEXTURE0 : Nat := 0x84C0

def GL_TEXTURE_WRAP_S : Nat := 0x2802

def GL_TEXTURE_WRAP_T : Nat := 0x2803

def GL_TEXTURE_MIN_FILTER : Nat := 0x2801

def GL_TEXTURE_MAG_FILTER : Nat := 0x2800

def GL_REPEAT : Nat := 0x2901

def GL_LINEAR : Nat := 0x2601

def GL_RGB8 : Nat := 0x8051

def GL_RGBA8 : Nat := 0x8058

def GL_RGB : Nat := 0x1907

def GL_RGBA : Nat := 0x1908

/-- Modelled from the spec: `SceneManager.h` is not among the provided
sources, only `SceneManager.cpp`.  Per the spec ("a flat texture registry
(array of ID+tag pairs)", "texture loading into a fixed-size array") and
the code comments ("there are a total of 16 available slots for scene
textures"), `m_textureIDs` is a fixed array of 16 `TEXTURE_ID` slots.
Its capacity, used only to state in-bounds facts about writes. -/
def textureSlotCapacity : Nat := 16

/-- The mutable state of a `SceneManager` object: the texture registry
(`m_textureIDs`, modelled as a total map over slot indices, with
`m_loadedTextures` counting the populated prefix) and the material list.
Modelled from the spec for the missing header `SceneManager.h`: the
members are declared there; the registry starts empty
(`m_loadedTextures = 0`, "populated once at startup"). -/
structure SceneState where
  m_textureIDs : Nat → TEXTURE_ID
  m_loadedTextures : Nat
  m_objectMaterials : List OBJECT_MATERIAL

/-- The state of the external OpenGL texture-name allocator backing
`glGenTextures`: names are handed out sequentially from `nextTexName`. -/
structure GLState where
  nextTexName : Nat
deriving DecidableEq, Repr

/-- Result of one `CreateGLTexture` call: the returned bool, the updated
scene and GL states, the emitted event trace, and the list of array
indices written in `m_textureIDs` (for in-bounds accounting). -/
structure CreateResult where
  ok : Bool
  state : SceneState
  gl : GLState
  trace : List GLEvent
  writes : List Nat

/-- Model of `glGenTextures(1, &id)` against the sequential allocator: returns the
fresh name and the advanced allocator. -/
def glGenTextures (gl : GLState) : Nat × GLState :=
  (gl.nextTexName, ⟨gl.nextTexName + 1⟩)

/-- Model of `SceneManager::CreateGLTexture` (SceneManager.cpp lines 60-124).
`env filename` models `stbi_load(filename, ...)`.  On decode failure it
logs and returns `false`.  On success it logs, generates and configures a
texture; if the channel count is 3 or 4 it uploads the image, registers
`(textureID, tag)` at index `m_loadedTextures`, increments the count and
returns `true`; for any other channel count it logs "Not implemented..."
and returns `false` without touching the registry. -/
def createGLTexture (env : String → Option Image) (filename : String)
    (tag : String) (s : SceneState) (gl : GLState) : CreateResult :=
  match env filename with
  | none =>
      { ok := false, state := s, gl := gl,
        trace := [GLEvent.log ("Could not load image:" ++ filename)],
        writes := [] }
  | some image =>
      let logOk := GLEvent.log ("Successfully loaded image:" ++ filename ++
        ", width:" ++ toString image.width ++ ", height:" ++
        toString image.height ++ ", channels:" ++ toString image.colorChannels)
      let (textureID, gl1) := glGenTextures gl
      let setupTrace : List GLEvent :=
        [logOk, GLEvent.glGenTexturesCall textureID,
         GLEvent.glBindTexture2D textureID,
         GLEvent.glTexParameteriCall GL_TEXTURE_WRAP_S GL_REPEAT,
         GLEvent.glTexParameteriCall GL_TEXTURE_WRAP_T GL_REPEAT,
         GLEvent.glTexParameteriCall GL_TEXTURE_MIN_FILTER GL_LINEAR,
         GLEvent.glTexParameteriCall GL_TEXTURE_MAG_FILTER GL_LINEAR]
      -- common tail after the chosen glTexImage2D upload: generate mipmaps,
      -- free the image, unbind, register (textureID, tag) in the next slot
      let finish := fun (internalFormat format : Nat) =>
        { ok := true,
          state :=
            { s with
              m_textureIDs := fun i =>
                if i = s.m_loadedTextures then { ID := textureID, tag := tag }
                else s.m_textureIDs i,
              m_loadedTextures := s.m_loadedTextures + 1 },
          gl := gl1,
          trace := setupTrace ++
            [GLEvent.glTexImage2DCall internalFormat image.width image.height format,
             GLEvent.glGenerateMipmapCall, GLEvent.glBindTexture2D 0],
          writes := [s.m_loadedTextures] : CreateResult }
      if image.colorChannels = 3 then
        finish GL_RGB8 GL_RGB
      else if image.colorChannels = 4 then
        finish GL_RGBA8 GL_RGBA
      else
        { ok := false, state := s, gl := gl1,
          trace := setupTrace ++
            [GLEvent.log ("Not implemented to handle image with " ++
              toString image.colorChannels ++ " channels")],
          writes := [] }

/-- Model of `SceneManager::BindGLTextures` (lines 132-140): for each populated
slot `i`, activate texture unit `GL_TEXTURE0 + i` and bind the texture
registered in slot `i`. -/
def bindGLTextures (s : SceneState) : List GLEvent :=
  (List.range s.m_loadedTextures).flatMap fun i =>
    [GLEvent.glActiveTexture (GL_TEXTURE0 + i),
     GLEvent.glBindTexture2D (s.m_textureIDs i).ID]

/-- Model of `SceneManager::DestroyGLTextures` (lines 148-154): the body of the
`for` loop, at index `i` with `remaining = m_loadedTextures - i` loop
iterations left (structural recursion on `remaining`); each iteration
calls `glGenTextures(1, &m_textureIDs[i].ID)`, overwriting the stored
texture name with a freshly generated one (the tag is untouched).
Returns the updated scene and allocator states and the emitted trace. -/
def destroyLoop (s : SceneState) (gl : GLState) (i : Nat) :
    Nat → SceneState × GLState × List GLEvent
  | 0 => (s, gl, [])
  | remaining + 1 =>
      let (newID, gl1) := glGenTextures gl
      let s1 : SceneState :=
        { s with m_textureIDs := fun j =>
            if j = i then { s.m_textureIDs i with ID := newID }
            else s.m_textureIDs j }
      let rest := destroyLoop s1 gl1 (i + 1) remaining
      (rest.1, rest.2.1, GLEvent.glGenTexturesCall newID :: rest.2.2)

/-- Model of `SceneManager::DestroyGLTextures` itself: run the loop over all of
`m_loadedTextures` slots starting at index 0. -/
def destroyGLTextures (s : SceneState) (gl : GLState) :
    SceneState × GLState × List GLEvent :=
  destroyLoop s gl 0 s.m_loadedTextures

/-- The `while ((index < m_loadedTextures) && (bFound == false))` loop of
`SceneManager::FindTextureID` (lines 162-180), at `index` with
`remaining = m_loadedTextures - index` iterations left (structural
recursion on `remaining`): if the slot's tag equals the argument, record
its `ID` and stop; otherwise advance.  Falls off the loop with the
initial value `-1`. -/
def findTextureIDLoop (s : SceneState) (tag : String) (index : Nat) :
    Nat → Int
  | 0 => (-1 : Int)
  | remaining + 1 =>
      if (s.m_textureIDs index).tag = tag then
        ((s.m_textureIDs index).ID : Int)
      else
        findTextureIDLoop s tag (index + 1) remaining

/-- Model of `SceneManager::FindTextureID`: scan the `m_loadedTextures` populated
slots from index 0. -/
def findTextureID (s : SceneState) (tag : String) : Int :=
  findTextureIDLoop s tag 0 s.m_loadedTextures

/-- The scanning loop of `SceneManager::FindTextureSlot` (lines 188-206):
identical to `findTextureIDLoop` except that it records the slot index
rather than the stored `ID`. -/
def findTextureSlotLoop (s : SceneState) (tag : String) (index : Nat) :
    Nat → Int
  | 0 => (-1 : Int)
  | remaining + 1 =>
      if (s.m_textureIDs index).tag = tag then
        (index : Int)
      else
        findTextureSlotLoop s tag (index + 1) remaining

/-- Model of `SceneManager::FindTextureSlot`: scan the `m_loadedTextures`
populated slots from index 0. -/
def findTextureSlot (s : SceneState) (tag : String) : Int :=
  findTextureSlotLoop s tag 0 s.m_loadedTextures

/-- The scanning loop of `SceneManager::FindMaterial` (lines 221-238):
walk `m_objectMaterials` in order (the `index`-based `while` loop visits
exactly the successive list entries); at the first entry whose tag
matches, copy that entry's `ambientColor`, `ambientStrength`,
`diffuseColor`, `specularColor` and `shininess` (and nothing else — in
particular not `tag`) into the in/out parameter `material` and stop. -/
def findMaterialLoop (tag : String) (material : OBJECT_MATERIAL) :
    List OBJECT_MATERIAL → OBJECT_MATERIAL
  | [] => material
  | entry :: rest =>
      if entry.tag = tag then
        { material with
          ambientColor := entry.ambientColor,
          ambientStrength := entry.ambientStrength,
          diffuseColor := entry.diffuseColor,
          specularColor := entry.specularColor,
          shininess := entry.shininess }
      else
        findMaterialLoop tag material rest

/-- Model of `SceneManager::FindMaterial` (lines 214-241): returns `false` (with
`material` untouched) when the material list is empty; otherwise runs the
scanning loop and returns `true` — note the source returns `true` at the
end of the function regardless of whether any tag matched. -/
def findMaterial (mats : List OBJECT_MATERIAL) (tag : String)
    (material : OBJECT_MATERIAL) : Bool × OBJECT_MATERIAL :=
  if mats.length = 0 then
    (false, material)
  else
    (true, findMaterialLoop tag material mats)

/-- Model of `SceneManager::SetTransformations` (lines 249-279): computes
`modelView = translation * rotationX * rotationY * rotationZ * scale` and,
when the shader manager is non-null, pushes it as the `"model"` uniform
(event carries the transform parameters; the matrix itself is computed by
glm). -/
def setTransformations (hasShader : Bool) (scaleXYZ : Vec3)
    (xDeg yDeg zDeg : ℚ) (positionXYZ : Vec3) : List GLEvent :=
  if hasShader then
    [GLEvent.setMat4Model scaleXYZ xDeg yDeg zDeg positionXYZ]
  else
    []

/-- Model of `SceneManager::SetShaderColor` (lines 287-306): when the shader
manager is non-null, disable texturing (`setIntValue("bUseTexture",
false)`, the C++ bool converting to int 0) and push the rgba color. -/
def setShaderColor (hasShader : Bool) (red green blue alpha : ℚ) :
    List GLEvent :=
  if hasShader then
    [GLEvent.setIntValue "bUseTexture" 0,
     GLEvent.setVec4Value "objectColor" ⟨red, green, blue, alpha⟩]
  else
    []

/-- Model of `SceneManager::SetShaderTexture` (lines 314-325): when the shader
manager is non-null, enable texturing (`setIntValue("bUseTexture", true)`,
the C++ bool converting to int 1), then look the tag up with
`FindTextureSlot` (into a local initialized to -1) and push the result as
the `"objectTexture"` sampler value. -/
def setShaderTexture (hasShader : Bool) (s : SceneState)
    (textureTag : String) : List GLEvent :=
  if hasShader then
    let textureID := findTextureSlot s textureTag
    [GLEvent.setIntValue "bUseTexture" 1,
     GLEvent.setSampler2DValue "objectTexture" textureID]
  else
    []

/-- Model of `SceneManager::SetTextureUVScale` (lines 333-339). -/
def setTextureUVScale (hasShader : Bool) (u v : ℚ) : List GLEvent :=
  if hasShader then
    [GLEvent.setVec2Value "UVscale" u v]
  else
    []

/-- Model of `SceneManager::SetShaderMaterial` (lines 347-365): when the material
list is non-empty, look the tag up with `FindMaterial` into a local
`OBJECT_MATERIAL material` and, when `FindMaterial` returned `true`, push
the five material uniforms.  The local is default-initialized by C++
(glm leaves the fields indeterminate), so its initial value is the
parameter `material0`.  The pushes do not re-check the shader pointer. -/
def setShaderMaterial (mats : List OBJECT_MATERIAL) (materialTag : String)
    (material0 : OBJECT_MATERIAL) : List GLEvent :=
  if mats.length > 0 then
    let r := findMaterial mats materialTag material0
    if r.1 = true then
      [GLEvent.setVec3Value "material.ambientColor" r.2.ambientColor,
       GLEvent.setFloatValue "material.ambientStrength" r.2.ambientStrength,
       GLEvent.setVec3Value "material.diffuseColor" r.2.diffuseColor,
       GLEvent.setVec3Value "material.specularColor" r.2.specularColor,
       GLEvent.setFloatValue "material.shininess" r.2.shininess]
    else
      []
  else
    []

/-- Model of `SceneManager::LoadSceneTextures` (lines 381-420): the ten
`CreateGLTexture` calls in source order (each return value overwrites the
same local `bReturn`, which is never examined), followed by
`BindGLTextures`.  Returns the final scene and allocator states, the
concatenated event trace, and the concatenated list of registry indices
written. -/
def loadSceneTextures (env : String → Option Image) (s : SceneState)
    (gl : GLState) : SceneState × GLState × List GLEvent × List Nat :=
  let r1 := createGLTexture env "../../Utilities/textures/granite1.jpg" "counter" s gl
  let r2 := createGLTexture env "../../Utilities/textures/tiles.jpg" "wall" r1.state r1.gl
  let r3 := createGLTexture env "../../Utilities/textures/Rubiks_white.jpg" "box_white" r2.state r2.gl
  let r4 := createGLTexture env "../../Utilities/textures/Rubiks_red.jpg" "box_red" r3.state r3.gl
  let r5 := createGLTexture env "../../Utilities/textures/Rubiks_blue.jpg" "box_blue" r4.state r4.gl
  let r6 := createGLTexture env "../../Utilities/textures/cardboard.jpg" "paperbag" r5.state r5.gl
  let r7 := createGLTexture env "../../Utilities/textures/wood.jpg" "bagclip" r6.state r6.gl
  let r8 := createGLTexture env "../../Utilities/textures/bagtag.jpg" "label" r7.state r7.gl
  let r9 := createGLTexture env "../../Utilities/textures/wax.jpg" "candlewax" r8.state r8.gl
  let r10 := createGLTexture env "../../Utilities/textures/ceramic.jpg" "mug" r9.state r9.gl
  (r10.state, r10.gl,
   r1.trace ++ r2.trace ++ r3.trace ++ r4.trace ++ r5.trace ++ r6.trace ++
   r7.trace ++ r8.trace ++ r9.trace ++ r10.trace ++ bindGLTextures r10.state,
   r1.writes ++ r2.writes ++ r3.writes ++ r4.writes ++ r5.writes ++
   r6.writes ++ r7.writes ++ r8.writes ++ r9.writes ++ r10.writes)

/-- Model of `SceneManager::DefineObjectMaterials` (lines 429-461): push the
"glass", "ceramic" and "cardboard" presets, in that order and with these
literal field values, onto `m_objectMaterials`. -/
def defineObjectMaterials (mats : List OBJECT_MATERIAL) :
    List OBJECT_MATERIAL :=
  let glassMaterial : OBJECT_MATERIAL :=
    { ambientColor := ⟨0.7, 0.7, 0.7⟩, ambientStrength := 0.4,
      diffuseColor := ⟨0.8, 0.8, 0.8⟩, specularColor := ⟨0.7, 0.7, 0.7⟩,
      shininess := 85, tag := "glass" }
  let ceramicMaterial : OBJECT_MATERIAL :=
    { ambientColor := ⟨0.3, 0.3, 0.3⟩, ambientStrength := 0.5,
      diffuseColor := ⟨0.4, 0.4, 0.4⟩, specularColor := ⟨0.2, 0.2, 0.2⟩,
      shininess := 25, tag := "ceramic" }
  let cardboardMaterial : OBJECT_MATERIAL :=
    { ambientColor := ⟨0.2, 0.2, 0.2⟩, ambientStrength := 0.2,
      diffuseColor := ⟨0.1, 0.1, 0.1⟩, specularColor := ⟨0, 0, 0⟩,
      shininess := 0, tag := "cardboard" }
  mats ++ [glassMaterial] ++ [ceramicMaterial] ++ [cardboardMaterial]

/-- Model of `SceneManager::SetupSceneLights` (lines 469-500): enable lighting and
push the uniforms for the three point lights, in source order.  (The
shader pointer is dereferenced without a null check here.) -/
def setupSceneLights : List GLEvent :=
  [GLEvent.setBoolValue "bUseLighting" true,
   GLEvent.setVec3Value "lightSources[0].position" ⟨0, 10, 6⟩,
   GLEvent.setVec3Value "lightSources[0].ambientColor" ⟨0.2, 0.2, 0.2⟩,
   GLEvent.setVec3Value "lightSources[0].diffuseColor" ⟨1, 1, 1⟩,
   GLEvent.setVec3Value "lightSources[0].specularColor" ⟨1, 1, 1⟩,
   GLEvent.setFloatValue "lightSources[0].focalStrength" 5,
   GLEvent.setFloatValue "lightSources[0].specularIntensity" 5,
   GLEvent.setVec3Value "lightSources[1].position" ⟨-10, 10, 6⟩,
   GLEvent.setVec3Value "lightSources[1].ambientColor" ⟨0.2, 0.2, 0.2⟩,
   GLEvent.setVec3Value "lightSources[1].diffuseColor" ⟨1, 0.95, 0.6⟩,
   GLEvent.setVec3Value "lightSources[1].specularColor" ⟨1, 0.95, 0.6⟩,
   GLEvent.setFloatValue "lightSources[1].focalStrength" 15,
   GLEvent.setFloatValue "lightSources[1].specularIntensity" 5,
   GLEvent.setVec3Value "lightSources[2].position" ⟨10, 10, 6⟩,
   GLEvent.setVec3Value "lightSources[2].ambientColor" ⟨0.2, 0.2, 0.2⟩,
   GLEvent.setVec3Value "lightSources[2].diffuseColor" ⟨1, 0.95, 0.6⟩,
   GLEvent.setVec3Value "lightSources[2].specularColor" ⟨1, 0.95, 0.6⟩,
   GLEvent.setFloatValue "lightSources[2].focalStrength" 15,
   GLEvent.setFloatValue "lightSources[2].specularIntensity" 5]

/-- Model of `SceneManager::RenderCounter` (lines 549-588): plane, granite
counter top. -/
def renderCounter (hasShader : Bool) (s : SceneState)
    (material0 : OBJECT_MATERIAL) : List GLEvent :=
  setTransformations hasShader ⟨20, 1, 10⟩ 0 0 0 ⟨0, 0, 2⟩ ++
  setShaderTexture hasShader s "counter" ++
  setShaderMaterial s.m_objectMaterials "ceramic" material0 ++
  setTextureUVScale hasShader 2 2 ++
  [GLEvent.drawMesh MeshKind.plane]

/-- Model of `SceneManager::RenderWall` (lines 1099-1138): plane, tiled wall. -/
def renderWall (hasShader : Bool) (s : SceneState)
    (material0 : OBJECT_MATERIAL) : List GLEvent :=
  setTransformations hasShader ⟨20, 1, 10⟩ 90 0 0 ⟨0, 5, -4⟩ ++
  setShaderMaterial s.m_objectMaterials "ceramic" material0 ++
  setShaderTexture hasShader s "wall" ++
  setTextureUVScale hasShader 1 1 ++
  [GLEvent.drawMesh MeshKind.plane]

/-- Model of `SceneManager::RenderMug` (lines 590-679): tapered-cylinder body,
torus lip, torus handle. -/
def renderMug (hasShader : Bool) (s : SceneState)
    (material0 : OBJECT_MATERIAL) : List GLEvent :=
  setTransformations hasShader ⟨2.5, 3, 2.5⟩ 180 0 0 ⟨-7, 2.5, 0⟩ ++
  setShaderMaterial s.m_objectMaterials "ceramic" material0 ++
  setShaderTexture hasShader s "mug" ++
  setTextureUVScale hasShader 1 1 ++
  [GLEvent.drawMesh MeshKind.taperedCylinder] ++
  setTransformations hasShader ⟨2, 2, 1.75⟩ 90 0 0 ⟨-7, 2.5, 0⟩ ++
  setShaderMaterial s.m_objectMaterials "ceramic" material0 ++
  setShaderTexture hasShader s "mug" ++
  setTextureUVScale hasShader 1 1 ++
  [GLEvent.drawMesh MeshKind.torus] ++
  setTransformations hasShader ⟨1.8, 0.9, 1⟩ 0 0 (-30) ⟨-8.9, 1.5, 0⟩ ++
  setShaderMaterial s.m_objectMaterials "ceramic" material0 ++
  setShaderTexture hasShader s "mug" ++
  setTextureUVScale hasShader 1 1 ++
  [GLEvent.drawMesh MeshKind.torus]

/-- Model of `SceneManager::RenderCandle` (lines 681-866): wax cylinder, wick
cylinder, glass bottom cylinder, bottom-taper tapered cylinder, narrow
cylinder, lip tapered cylinder, torus lid. -/
def renderCandle (hasShader : Bool) (s : SceneState)
    (material0 : OBJECT_MATERIAL) : List GLEvent :=
  setTransformations hasShader ⟨1.95, 3.25, 1.95⟩ 0 0 0 ⟨-2, 0, 0⟩ ++
  setShaderTexture hasShader s "candlewax" ++
  setTextureUVScale hasShader 1 1 ++
  [GLEvent.drawMesh MeshKind.cylinder] ++
  setTransformations hasShader ⟨0.1, 0.5, 0.1⟩ 0 0 0 ⟨-2, 3.25, 0⟩ ++
  setShaderColor hasShader 0 0 0 1 ++
  [GLEvent.drawMesh MeshKind.cylinder] ++
  setTransformations hasShader ⟨2, 3.75, 2⟩ 0 0 0 ⟨-2, 0, 0⟩ ++
  setShaderColor hasShader 0.7 0.7 0.8 0.3 ++
  setShaderMaterial s.m_objectMaterials "glass" material0 ++
  [GLEvent.drawMesh MeshKind.cylinder] ++
  setTransformations hasShader ⟨2, 0.5, 2⟩ 0 0 0 ⟨-2, 3.74, 0⟩ ++
  setShaderColor hasShader 0.7 0.7 0.8 0.3 ++
  setShaderMaterial s.m_objectMaterials "glass" material0 ++
  [GLEvent.drawMesh MeshKind.taperedCylinder] ++
  setTransformations hasShader ⟨1.75, 0.85, 1.75⟩ 0 0 0 ⟨-2, 4.1, 0⟩ ++
  setShaderColor hasShader 0.95 0.95 0.95 0.7 ++
  setShaderMaterial s.m_objectMaterials "glass" material0 ++
  [GLEvent.drawMesh MeshKind.cylinder] ++
  setTransformations hasShader ⟨1.75, 0.5, 1.75⟩ 0 0 0 ⟨-2, 4.95, 0⟩ ++
  setShaderColor hasShader 0.7 0.7 0.8 0.3 ++
  setShaderMaterial s.m_objectMaterials "glass" material0 ++
  [GLEvent.drawMesh MeshKind.taperedCylinder] ++
  setTransformations hasShader ⟨1, 1, 3⟩ 90 0 0 ⟨-2, 5.40, 0⟩ ++
  setShaderColor hasShader 0.7 0.7 0.8 0.3 ++
  setShaderMaterial s.m_objectMaterials "glass" material0 ++
  [GLEvent.drawMesh MeshKind.torus]

/-- Model of `SceneManager::RenderBag` (lines 957-1097): cardboard box, prism top,
label plane, two bag-clip planes. -/
def renderBag (hasShader : Bool) (s : SceneState)
    (material0 : OBJECT_MATERIAL) : List GLEvent :=
  setTransformations hasShader ⟨3.95, 2.60, 2.30⟩ 0 (-20) 0 ⟨6.5, 1.25, 0⟩ ++
  setShaderTexture hasShader s "paperbag" ++
  setShaderMaterial s.m_objectMaterials "cardboard" material0 ++
  setTextureUVScale hasShader 1 1 ++
  [GLEvent.drawMesh MeshKind.box] ++
  setTransformations hasShader ⟨2.35, 3.95, 4.5⟩ (-90) 0 (-110) ⟨6.5, 4.55, 0⟩ ++
  setShaderTexture hasShader s "paperbag" ++
  setShaderMaterial s.m_objectMaterials "cardboard" material0 ++
  setTextureUVScale hasShader 1 1 ++
  [GLEvent.drawMesh MeshKind.prism] ++
  setTransformations hasShader ⟨1.2, 0, 1.6⟩ 78 (-5) 20 ⟨6.2, 4.5, 0.65⟩ ++
  setShaderTexture hasShader s "label" ++
  setTextureUVScale hasShader 1 1 ++
  [GLEvent.drawMesh MeshKind.plane] ++
  setTransformations hasShader ⟨0.4, 0, 0.15⟩ 78 (-5) 20 ⟨4.9, 6.25, -0.3⟩ ++
  setShaderTexture hasShader s "bagclip" ++
  setTextureUVScale hasShader 1 1 ++
  [GLEvent.drawMesh MeshKind.plane] ++
  setTransformations hasShader ⟨0.4, 0, 0.15⟩ 78 (-5) 20 ⟨7.91, 6.25, 0.72⟩ ++
  setShaderTexture hasShader s "bagclip" ++
  setTextureUVScale hasShader 1 1 ++
  [GLEvent.drawMesh MeshKind.plane]

/-- Model of `SceneManager::RenderRubiks` (lines 868-955): textured box plus red
and blue face planes. -/
def renderRubiks (hasShader : Bool) (s : SceneState) : List GLEvent :=
  setTransformations hasShader ⟨2, 2, 2⟩ 0 45 0 ⟨3, 1, 2⟩ ++
  setShaderTexture hasShader s "box_white" ++
  setTextureUVScale hasShader 1 1 ++
  [GLEvent.drawMesh MeshKind.box] ++
  setTransformations hasShader ⟨1, 1, 1⟩ 90 0 135 ⟨3.75, 1, 2.71⟩ ++
  setShaderTexture hasShader s "box_red" ++
  setTextureUVScale hasShader 1 1 ++
  [GLEvent.drawMesh MeshKind.plane] ++
  setTransformations hasShader ⟨1, 1, 1⟩ 0 45 0 ⟨3, 2.01, 2⟩ ++
  setShaderTexture hasShader s "box_blue" ++
  setTextureUVScale hasShader 1 1 ++
  [GLEvent.drawMesh MeshKind.plane]

/-- Model of `SceneManager::RenderScene` (lines 539-547): render the six scene
objects in source order — counter, wall, mug, candle, bag, Rubik's box. -/
def renderScene (hasShader : Bool) (s : SceneState)
    (material0 : OBJECT_MATERIAL) : List GLEvent :=
  renderCounter hasShader s material0 ++
  renderWall hasShader s material0 ++
  renderMug hasShader s material0 ++
  renderCandle hasShader s material0 ++
  renderBag hasShader s material0 ++
  renderRubiks hasShader s

/-- The freshly constructed `SceneManager`: empty texture registry
(all 16 array slots value-initialized, `m_loadedTextures = 0`) and empty
material list. -/
def initialState : SceneState :=
  { m_textureIDs := fun _ => { ID := 0, tag := "" },
    m_loadedTextures := 0,
    m_objectMaterials := [] }

/-- An OpenGL context whose texture-name allocator starts at 1 (name 0 is
reserved by OpenGL). -/
def initialGL : GLState := ⟨1⟩

/-- The nominal image environment: every texture file of the scene
decodes successfully as a 3-channel (RGB) image. -/
def nominalEnv : String → Option Image :=
  fun _ => some { width := 512, height := 512, colorChannels := 3 }

/-- The scene state after `PrepareScene` under the nominal environment:
`LoadSceneTextures` followed by `DefineObjectMaterials` (the remaining
work of `PrepareScene` — `SetupSceneLights` and the mesh loads — does not
touch this state). -/
def nominalPrepared : SceneState :=
  let r := loadSceneTextures nominalEnv initialState initialGL
  { r.1 with m_objectMaterials := defineObjectMaterials r.1.m_objectMaterials }

/-- An arbitrary fixed value standing for the default-initialized local
`OBJECT_MATERIAL` of `SetShaderMaterial`. -/
def materialZero : OBJECT_MATERIAL :=
  { ambientColor := ⟨0, 0, 0⟩, ambientStrength := 0,
    diffuseColor := ⟨0, 0, 0⟩, specularColor := ⟨0, 0, 0⟩,
    shininess := 0, tag := "" }

/-- The event trace `RenderScene` emits from the nominal prepared state. -/
def sceneTrace : List GLEvent :=
  renderScene true nominalPrepared materialZero

/-! ## Lemmas about the linear-scan loops -/

/-- Scanning from `index` for `remaining` slots returns the initial value
`-1` when no scanned slot's tag matches. -/
lemma findTextureSlotLoop_eq_neg_one (s : SceneState) (tag : String) :
    ∀ remaining index,
      (∀ k, k < remaining → (s.m_textureIDs (index + k)).tag ≠ tag) →
      findTextureSlotLoop s tag index remaining = -1 := by
  intro remaining
  induction remaining with
  | zero => intro index _; rfl
  | succ n ih =>
      intro index h
      have h0 := h 0 (Nat.succ_pos n)
      rw [Nat.add_zero] at h0
      rw [findTextureSlotLoop, if_neg h0]
      refine ih (index + 1) (fun k hk => ?_)
      have e : index + 1 + k = index + (k + 1) := by omega
      rw [e]
      exact h (k + 1) (by omega)

/-- Scanning from `index` for `remaining` slots stops at the first match
and returns its slot position. -/
lemma findTextureSlotLoop_eq_of_first (s : SceneState) (tag : String) :
    ∀ remaining index k, k < remaining →
      (s.m_textureIDs (index + k)).tag = tag →
      (∀ j, j < k → (s.m_textureIDs (index + j)).tag ≠ tag) →
      findTextureSlotLoop s tag index remaining = ((index + k : Nat) : Int) := by
  intro remaining
  induction remaining with
  | zero => intro index k hk; omega
  | succ n ih =>
      intro index k hk hmatch hbefore
      match k with
      | 0 =>
          rw [Nat.add_zero] at hmatch
          rw [findTextureSlotLoop, if_pos hmatch, Nat.add_zero]
      | k + 1 =>
          have h0 := hbefore 0 (Nat.succ_pos k)
          rw [Nat.add_zero] at h0
          rw [findTextureSlotLoop, if_neg h0]
          have e : index + 1 + k = index + (k + 1) := by omega
          rw [show ((index + (k + 1) : Nat) : Int) = ((index + 1 + k : Nat) : Int) by rw [e]]
          refine ih (index + 1) k (by omega) (by rw [e]; exact hmatch) ?_
          intro j hj
          have ej : index + 1 + j = index + (j + 1) := by omega
          rw [ej]
          exact hbefore (j + 1) (by omega)

/-- Scanning counterpart of `findTextureSlotLoop_eq_neg_one` for the
`FindTextureID` loop. -/
lemma findTextureIDLoop_eq_neg_one (s : SceneState) (tag : String) :
    ∀ remaining index,
      (∀ k, k < remaining → (s.m_textureIDs (index + k)).tag ≠ tag) →
      findTextureIDLoop s tag index remaining = -1 := by
  intro remaining
  induction remaining with
  | zero => intro index _; rfl
  | succ n ih =>
      intro index h
      have h0 := h 0 (Nat.succ_pos n)
      rw [Nat.add_zero] at h0
      rw [findTextureIDLoop, if_neg h0]
      refine ih (index + 1) (fun k hk => ?_)
      have e : index + 1 + k = index + (k + 1) := by omega
      rw [e]
      exact h (k + 1) (by omega)

/-- Scanning counterpart of `findTextureSlotLoop_eq_of_first` for the
`FindTextureID` loop: it returns the stored `ID` of the first match. -/
lemma findTextureIDLoop_eq_of_first (s : SceneState) (tag : String) :
    ∀ remaining index k, k < remaining →
      (s.m_textureIDs (index + k)).tag = tag →
      (∀ j, j < k → (s.m_textureIDs (index + j)).tag ≠ tag) →
      findTextureIDLoop s tag index remaining =
        ((s.m_textureIDs (index + k)).ID : Int) := by
  intro remaining
  induction remaining with
  | zero => intro index k hk; omega
  | succ n ih =>
      intro index k hk hmatch hbefore
      match k with
      | 0 =>
          rw [Nat.add_zero] at hmatch
          rw [findTextureIDLoop, if_pos hmatch, Nat.add_zero]
      | k + 1 =>
          have h0 := hbefore 0 (Nat.succ_pos k)
          rw [Nat.add_zero] at h0
          rw [findTextureIDLoop, if_neg h0]
          have e : index + 1 + k = index + (k + 1) := by omega
          rw [show index + (k + 1) = index + 1 + k by omega]
          refine ih (index + 1) k (by omega) (by rw [e]; exact hmatch) ?_
          intro j hj
          have ej : index + 1 + j = index + (j + 1) := by omega
          rw [ej]
          exact hbefore (j + 1) (by omega)

/-- The `FindMaterial` scan leaves the in/out parameter untouched when no
entry's tag matches. -/
lemma findMaterialLoop_no_match (tag : String) (material : OBJECT_MATERIAL) :
    ∀ mats : List OBJECT_MATERIAL, (∀ e ∈ mats, e.tag ≠ tag) →
      findMaterialLoop tag material mats = material := by
  intro mats
  induction mats with
  | nil => intro _; rfl
  | cons entry rest ih =>
      intro h
      rw [findMaterialLoop, if_neg (h entry (List.mem_cons_self entry rest))]
      exact ih (fun e he => h e (List.mem_cons_of_mem entry he))

/-- The `FindMaterial` scan stops at the first matching entry and copies
exactly its five non-tag fields into the in/out parameter. -/
lemma findMaterialLoop_first_match (tag : String) (material : OBJECT_MATERIAL)
    (entry : OBJECT_MATERIAL) (post : List OBJECT_MATERIAL)
    (hmatch : entry.tag = tag) :
    ∀ pre : List OBJECT_MATERIAL, (∀ e ∈ pre, e.tag ≠ tag) →
      findMaterialLoop tag material (pre ++ entry :: post) =
        { material with
          ambientColor := entry.ambientColor,
          ambientStrength := entry.ambientStrength,
          diffuseColor := entry.diffuseColor,
          specularColor := entry.specularColor,
          shininess := entry.shininess } := by
  intro pre
  induction pre with
  | nil =>
      intro _
      rw [List.nil_append, findMaterialLoop, if_pos hmatch]
  | cons p rest ih =>
      intro h
      rw [List.cons_append, findMaterialLoop,
        if_neg (h p (List.mem_cons_self p rest))]
      exact ih (fun e he => h e (List.mem_cons_of_mem p he))

/-! ## Claim theorems: registry lookups -/

/-- C2: for every tag and registry state, `FindTextureSlot` returns the
array index of the first registered entry whose tag equals the argument
and `-1` when no registered entry has that tag, while `FindTextureID`
returns the stored texture `ID` of that same first matching entry and
`-1` when no entry matches. -/
theorem findTexture_lookup_spec (s : SceneState) (tag : String) :
    ((∀ i, i < s.m_loadedTextures → (s.m_textureIDs i).tag ≠ tag) →
        findTextureSlot s tag = -1 ∧ findTextureID s tag = -1) ∧
    (∀ i, i < s.m_loadedTextures → (s.m_textureIDs i).tag = tag →
        (∀ j, j < i → (s.m_textureIDs j).tag ≠ tag) →
        findTextureSlot s tag = (i : Int) ∧
        findTextureID s tag = ((s.m_textureIDs i).ID : Int)) := by
  constructor
  · intro h
    constructor
    · exact findTextureSlotLoop_eq_neg_one s tag s.m_loadedTextures 0
        (fun k hk => by simpa using h k hk)
    · exact findTextureIDLoop_eq_neg_one s tag s.m_loadedTextures 0
        (fun k hk => by simpa using h k hk)
  · intro i hi hmatch hfirst
    constructor
    · have := findTextureSlotLoop_eq_of_first s tag s.m_loadedTextures 0 i hi
        (by simpa using hmatch) (fun j hj => by simpa using hfirst j hj)
      simpa using this
    · have := findTextureIDLoop_eq_of_first s tag s.m_loadedTextures 0 i hi
        (by simpa using hmatch) (fun j hj => by simpa using hfirst j hj)
      simpa using this

/-- Witness for C2: in the nominal prepared registry, "mug" was the tenth
texture loaded, so it sits in slot 9 holding texture name 10. -/
theorem findTexture_lookup_spec_witness :
    findTextureSlot nominalPrepared "mug" = (9 : Int) ∧
    findTextureID nominalPrepared "mug" = (10 : Int) := by
  have h := (findTexture_lookup_spec nominalPrepared "mug").2 9
    (by decide) (by decide) (by decide)
  exact ⟨h.1, by rw [h.2]; decide⟩

/-- C10: when `SetShaderTexture` is called (shader manager non-null) with
a tag absent from the texture registry, it still enables texturing first
(`bUseTexture := true`, i.e. int 1) and then pushes the sentinel slot
value `-1` as the sampler value; no error is reported and no event
disables texturing for the subsequent draw. -/
theorem setShaderTexture_unknown_tag_spec (s : SceneState) (tag : String)
    (hnone : ∀ i, i < s.m_loadedTextures → (s.m_textureIDs i).tag ≠ tag) :
    setShaderTexture true s tag =
      [GLEvent.setIntValue "bUseTexture" 1,
       GLEvent.setSampler2DValue "objectTexture" (-1)] := by
  have h := findTextureSlotLoop_eq_neg_one s tag s.m_loadedTextures 0
    (fun k hk => by simpa using hnone k hk)
  simp only [setShaderTexture, findTextureSlot, h, if_true]

/-- Witness for C10 at the nominal prepared registry and a tag that was
never loaded. -/
theorem setShaderTexture_unknown_tag_spec_witness :
    setShaderTexture true nominalPrepared "marble" =
      [GLEvent.setIntValue "bUseTexture" 1,
       GLEvent.setSampler2DValue "objectTexture" (-1)] :=
  setShaderTexture_unknown_tag_spec nominalPrepared "marble" (by decide)

/-- C3: `FindMaterial` returns `true` exactly when the material list is
non-empty, regardless of whether any entry's tag matches; when no entry
matches, the in/out material parameter is returned unmodified, so
`SetShaderMaterial` called with an unknown tag (and non-empty list)
pushes the five fields of the default-initialized local
`OBJECT_MATERIAL` (here `material0`) to the shader instead of skipping
the update. -/
theorem findMaterial_nonempty_true_spec (mats : List OBJECT_MATERIAL)
    (tag : String) (material0 : OBJECT_MATERIAL) :
    ((findMaterial mats tag material0).1 = true ↔ mats ≠ []) ∧
    ((∀ e ∈ mats, e.tag ≠ tag) →
        (findMaterial mats tag material0).2 = material0) ∧
    (mats ≠ [] → (∀ e ∈ mats, e.tag ≠ tag) →
        setShaderMaterial mats tag material0 =
          [GLEvent.setVec3Value "material.ambientColor" material0.ambientColor,
           GLEvent.setFloatValue "material.ambientStrength" material0.ambientStrength,
           GLEvent.setVec3Value "material.diffuseColor" material0.diffuseColor,
           GLEvent.setVec3Value "material.specularColor" material0.specularColor,
           GLEvent.setFloatValue "material.shininess" material0.shininess]) := by
  refine ⟨?_, ?_, ?_⟩
  · cases mats with
    | nil => simp [findMaterial]
    | cons m rest => simp [findMaterial]
  · intro h
    cases mats with
    | nil => rfl
    | cons m rest =>
        simp only [findMaterial, List.length_cons]
        rw [if_neg (by omega)]
        exact findMaterialLoop_no_match tag material0 (m :: rest) h
  · intro hne h
    have hfind : findMaterial mats tag material0 = (true, material0) := by
      cases mats with
      | nil => exact absurd rfl hne
      | cons m rest =>
          simp only [findMaterial, List.length_cons]
          rw [if_neg (by omega)]
          rw [findMaterialLoop_no_match tag material0 (m :: rest) h]
    cases mats with
    | nil => exact absurd rfl hne
    | cons m rest =>
        simp only [setShaderMaterial, List.length_cons, gt_iff_lt,
          Nat.succ_pos, if_true, hfind]

/-- Witness for C3: the full material registry with an unknown tag
"velvet" — `FindMaterial` reports success and `SetShaderMaterial` pushes
the untouched local's fields. -/
theorem findMaterial_nonempty_true_spec_witness :
    ((findMaterial (defineObjectMaterials []) "velvet" materialZero).1 = true ↔
        defineObjectMaterials [] ≠ []) ∧
    setShaderMaterial (defineObjectMaterials []) "velvet" materialZero =
      [GLEvent.setVec3Value "material.ambientColor" materialZero.ambientColor,
       GLEvent.setFloatValue "material.ambientStrength" materialZero.ambientStrength,
       GLEvent.setVec3Value "material.diffuseColor" materialZero.diffuseColor,
       GLEvent.setVec3Value "material.specularColor" materialZero.specularColor,
       GLEvent.setFloatValue "material.shininess" materialZero.shininess] := by
  have h := findMaterial_nonempty_true_spec (defineObjectMaterials [])
    "velvet" materialZero
  exact ⟨h.1, h.2.2 (by decide) (by decide)⟩

/-- C6: a single run of `DefineObjectMaterials` (from the empty list)
produces exactly the three presets "glass", "ceramic", "cardboard" in
that order with their literal field values, and `FindMaterial` copies
exactly the five non-tag fields of the first matching entry into the
output parameter. -/
theorem defineObjectMaterials_and_findMaterial_spec :
    defineObjectMaterials [] =
      [{ ambientColor := ⟨0.7, 0.7, 0.7⟩, ambientStrength := 0.4,
         diffuseColor := ⟨0.8, 0.8, 0.8⟩, specularColor := ⟨0.7, 0.7, 0.7⟩,
         shininess := 85, tag := "glass" },
       { ambientColor := ⟨0.3, 0.3, 0.3⟩, ambientStrength := 0.5,
         diffuseColor := ⟨0.4, 0.4, 0.4⟩, specularColor := ⟨0.2, 0.2, 0.2⟩,
         shininess := 25, tag := "ceramic" },
       { ambientColor := ⟨0.2, 0.2, 0.2⟩, ambientStrength := 0.2,
         diffuseColor := ⟨0.1, 0.1, 0.1⟩, specularColor := ⟨0, 0, 0⟩,
         shininess := 0, tag := "cardboard" }] ∧
    (∀ (pre post : List OBJECT_MATERIAL) (entry : OBJECT_MATERIAL)
        (tag : String) (material0 : OBJECT_MATERIAL),
      entry.tag = tag → (∀ e ∈ pre, e.tag ≠ tag) →
      findMaterial (pre ++ entry :: post) tag material0 =
        (true,
         { material0 with
           ambientColor := entry.ambientColor,
           ambientStrength := entry.ambientStrength,
           diffuseColor := entry.diffuseColor,
           specularColor := entry.specularColor,
           shininess := entry.shininess })) := by
  constructor
  · rfl
  · intro pre post entry tag material0 hmatch hpre
    have hlen : (pre ++ entry :: post).length ≠ 0 := by
      simp
    simp only [findMaterial, if_neg hlen]
    rw [findMaterialLoop_first_match tag material0 entry post hmatch pre hpre]

/-- Witness for C6: looking "ceramic" up in the defined registry copies
the ceramic preset's five fields over the zero material. -/
theorem defineObjectMaterials_and_findMaterial_spec_witness :
    findMaterial
      ([{ ambientColor := ⟨0.7, 0.7, 0.7⟩, ambientStrength := 0.4,
          diffuseColor := ⟨0.8, 0.8, 0.8⟩, specularColor := ⟨0.7, 0.7, 0.7⟩,
          shininess := 85, tag := "glass" }] ++
        { ambientColor := ⟨0.3, 0.3, 0.3⟩, ambientStrength := 0.5,
          diffuseColor := ⟨0.4, 0.4, 0.4⟩, specularColor := ⟨0.2, 0.2, 0.2⟩,
          shininess := 25, tag := "ceramic" } ::
        [{ ambientColor := ⟨0.2, 0.2, 0.2⟩, ambientStrength := 0.2,
           diffuseColor := ⟨0.1, 0.1, 0.1⟩, specularColor := ⟨0, 0, 0⟩,
           shininess := 0, tag := "cardboard" }])
      "ceramic" materialZero =
      (true,
       { materialZero with
         ambientColor := ⟨0.3, 0.3, 0.3⟩,
         ambientStrength := 0.5,
         diffuseColor := ⟨0.4, 0.4, 0.4⟩,
         specularColor := ⟨0.2, 0.2, 0.2⟩,
         shininess := 25 }) :=
  defineObjectMaterials_and_findMaterial_spec.2 _ _ _ "ceramic" materialZero
    (by decide) (by decide)

/-! ## Claim theorems: texture creation -/

/-- Counterexample to C1 as stated: an image environment that decodes
"gray.jpg" successfully as a 2-by-2 single-channel image makes
`CreateGLTexture` return `false` even though the image file was loaded,
refuting "returns `false` exactly when the image file cannot be loaded,
and returns `true` when it is loaded" (the source also returns `false`
for a loaded image whose channel count is neither 3 nor 4). -/
theorem createGLTexture_loaded_but_false :
    (((fun _ => some { width := 2, height := 2, colorChannels := 1 }) :
        String → Option Image) "gray.jpg").isSome = true ∧
    (createGLTexture
        (fun _ => some { width := 2, height := 2, colorChannels := 1 })
        "gray.jpg" "gray" initialState initialGL).ok = false := by
  exact ⟨rfl, rfl⟩

/-- C1 (amended): `CreateGLTexture` returns `true` exactly when the image
file decodes successfully AND its channel count is 3 or 4 (not merely
when it decodes); whenever it returns `false` it has logged a message and
the texture registry is unchanged — no entry of `m_textureIDs` is written
and `m_loadedTextures` is not incremented; whenever it returns `true`,
exactly one new entry holding the freshly generated texture ID and the
passed-in tag is written at index `m_loadedTextures`, every other slot is
untouched, and `m_loadedTextures` increases by one. -/
theorem createGLTexture_registry_spec (env : String → Option Image)
    (filename tag : String) (s : SceneState) (gl : GLState)
    (r : CreateResult) (hr : r = createGLTexture env filename tag s gl) :
    (r.ok = true ↔ ∃ image, env filename = some image ∧
        (image.colorChannels = 3 ∨ image.colorChannels = 4)) ∧
    (r.ok = false → r.state = s ∧ ∃ msg, GLEvent.log msg ∈ r.trace) ∧
    (r.ok = true →
        r.state.m_loadedTextures = s.m_loadedTextures + 1 ∧
        r.state.m_textureIDs s.m_loadedTextures =
          { ID := gl.nextTexName, tag := tag } ∧
        (∀ j, j ≠ s.m_loadedTextures →
            r.state.m_textureIDs j = s.m_textureIDs j) ∧
        r.state.m_objectMaterials = s.m_objectMaterials) := by
  subst hr
  cases henv : env filename with
  | none =>
      simp [createGLTexture, henv]
  | some image =>
      by_cases h3 : image.colorChannels = 3
      · simp [createGLTexture, henv, glGenTextures, h3]
        intro j hj hj2
        exact absurd hj2 hj
      · by_cases h4 : image.colorChannels = 4
        · simp [createGLTexture, henv, glGenTextures, h3, h4]
          intro j hj hj2
          exact absurd hj2 hj
        · simp [createGLTexture, henv, glGenTextures, h3, h4]

/-- Witness for C1 (amended): loading an RGBA image into the fresh
manager registers it in slot 0 and bumps the count to 1. -/
theorem createGLTexture_registry_spec_witness :
    (createGLTexture (fun _ => some { width := 4, height := 4, colorChannels := 4 })
        "a.png" "alpha" initialState initialGL).state.m_loadedTextures =
      initialState.m_loadedTextures + 1 :=
  ((createGLTexture_registry_spec
      (fun _ => some { width := 4, height := 4, colorChannels := 4 })
      "a.png" "alpha" initialState initialGL _ rfl).2.2 (by decide)).1

/-! ## Claim theorems: lights -/

/-- Specification-side shape of one configured point light `i`: position,
the shared ambient color `(0.2, 0.2, 0.2)`, one color used for both
diffuse and specular, and the focal strength / specular intensity pair. -/
def specPointLight (i : Nat) (position lightColor : Vec3)
    (focalStrength : ℚ) : List GLEvent :=
  [GLEvent.setVec3Value ("lightSources[" ++ toString i ++ "].position") position,
   GLEvent.setVec3Value ("lightSources[" ++ toString i ++ "].ambientColor") ⟨0.2, 0.2, 0.2⟩,
   GLEvent.setVec3Value ("lightSources[" ++ toString i ++ "].diffuseColor") lightColor,
   GLEvent.setVec3Value ("lightSources[" ++ toString i ++ "].specularColor") lightColor,
   GLEvent.setFloatValue ("lightSources[" ++ toString i ++ "].focalStrength") focalStrength,
   GLEvent.setFloatValue ("lightSources[" ++ toString i ++ "].specularIntensity") 5]

/-- C5: `SetupSceneLights` enables lighting and configures exactly three
point lights, no more: light 0 at `(0, 10, 6)` with white diffuse and
specular `(1, 1, 1)`, lights 1 and 2 at `(-10, 10, 6)` and `(10, 10, 6)`
with the softer yellow `(1, 0.95, 0.6)`, all three sharing ambient
`(0.2, 0.2, 0.2)` — the emitted trace is exactly the lighting enable
followed by these three light blocks. -/
theorem setupSceneLights_three_point_lights :
    setupSceneLights =
      GLEvent.setBoolValue "bUseLighting" true ::
        (specPointLight 0 ⟨0, 10, 6⟩ ⟨1, 1, 1⟩ 5 ++
         specPointLight 1 ⟨-10, 10, 6⟩ ⟨1, 0.95, 0.6⟩ 15 ++
         specPointLight 2 ⟨10, 10, 6⟩ ⟨1, 0.95, 0.6⟩ 15) := by
  rfl

/-! ## Observers for the render trace -/

/-- Observer: the mesh kind drawn by an event, `none` for every non-draw
event. -/
def drawKindOf? : GLEvent → Option MeshKind
  | GLEvent.drawMesh kind => some kind
  | _ => none

/-- Observer: scanning the trace with flag `fresh` = "a model-transform
event has been pushed since the last draw", check that every draw event
has its own preceding `SetTransformations` not shared with an earlier
draw. -/
def eachDrawFreshlyTransformed (fresh : Bool) : List GLEvent → Bool
  | [] => true
  | GLEvent.setMat4Model _ _ _ _ _ :: rest =>
      eachDrawFreshlyTransformed true rest
  | GLEvent.drawMesh _ :: rest => fresh && eachDrawFreshlyTransformed false rest
  | _ :: rest => eachDrawFreshlyTransformed fresh rest

/-- Observer: pair each draw event with the most recent model-transform
event preceding it (`none` if a draw happens before any transform). -/
def drawsWithTransforms (last : Option GLEvent) :
    List GLEvent → List (Option GLEvent × MeshKind)
  | [] => []
  | GLEvent.setMat4Model sc x y z p :: rest =>
      drawsWithTransforms (some (GLEvent.setMat4Model sc x y z p)) rest
  | GLEvent.drawMesh kind :: rest =>
      (last, kind) :: drawsWithTransforms last rest
  | _ :: rest => drawsWithTransforms last rest

/-- The twenty meshes drawn by one `RenderScene` pass, in order. -/
def sceneDrawKinds : List MeshKind :=
  [MeshKind.plane, MeshKind.plane, MeshKind.taperedCylinder, MeshKind.torus,
   MeshKind.torus, MeshKind.cylinder, MeshKind.cylinder, MeshKind.cylinder,
   MeshKind.taperedCylinder, MeshKind.cylinder, MeshKind.taperedCylinder,
   MeshKind.torus, MeshKind.box, MeshKind.prism, MeshKind.plane,
   MeshKind.plane, MeshKind.plane, MeshKind.box, MeshKind.plane,
   MeshKind.plane]

/-- C4: `RenderScene` issues one fixed scripted sequence composing the
scene in the order counter, wall, mug, candle, bag, Rubik's box; it uses
only the primitive meshes plane, cylinder, tapered cylinder, torus, box
and prism; every draw is covered by its own `SetTransformations` call
(none shared with an earlier draw), and each of the twenty draws happens
under exactly the literal transform constants of the source, listed
here. -/
theorem renderScene_scripted_sequence_spec :
    (∀ material0 : OBJECT_MATERIAL,
        renderScene true nominalPrepared material0 =
          renderCounter true nominalPrepared material0 ++
          renderWall true nominalPrepared material0 ++
          renderMug true nominalPrepared material0 ++
          renderCandle true nominalPrepared material0 ++
          renderBag true nominalPrepared material0 ++
          renderRubiks true nominalPrepared ∧
        renderScene true nominalPrepared material0 = sceneTrace) ∧
    sceneTrace.filterMap drawKindOf? = sceneDrawKinds ∧
    (∀ kind ∈ sceneDrawKinds,
        kind = MeshKind.plane ∨ kind = MeshKind.cylinder ∨
        kind = MeshKind.taperedCylinder ∨ kind = MeshKind.torus ∨
        kind = MeshKind.box ∨ kind = MeshKind.prism) ∧
    eachDrawFreshlyTransformed false sceneTrace = true ∧
    drawsWithTransforms none sceneTrace =
      [(some (GLEvent.setMat4Model ⟨20, 1, 10⟩ 0 0 0 ⟨0, 0, 2⟩),
        MeshKind.plane),
       (some (GLEvent.setMat4Model ⟨20, 1, 10⟩ 90 0 0 ⟨0, 5, -4⟩),
        MeshKind.plane),
       (some (GLEvent.setMat4Model ⟨2.5, 3, 2.5⟩ 180 0 0 ⟨-7, 2.5, 0⟩),
        MeshKind.taperedCylinder),
       (some (GLEvent.setMat4Model ⟨2, 2, 1.75⟩ 90 0 0 ⟨-7, 2.5, 0⟩),
        MeshKind.torus),
       (some (GLEvent.setMat4Model ⟨1.8, 0.9, 1⟩ 0 0 (-30) ⟨-8.9, 1.5, 0⟩),
        MeshKind.torus),
       (some (GLEvent.setMat4Model ⟨1.95, 3.25, 1.95⟩ 0 0 0 ⟨-2, 0, 0⟩),
        MeshKind.cylinder),
       (some (GLEvent.setMat4Model ⟨0.1, 0.5, 0.1⟩ 0 0 0 ⟨-2, 3.25, 0⟩),
        MeshKind.cylinder),
       (some (GLEvent.setMat4Model ⟨2, 3.75, 2⟩ 0 0 0 ⟨-2, 0, 0⟩),
        MeshKind.cylinder),
       (some (GLEvent.setMat4Model ⟨2, 0.5, 2⟩ 0 0 0 ⟨-2, 3.74, 0⟩),
        MeshKind.taperedCylinder),
       (some (GLEvent.setMat4Model ⟨1.75, 0.85, 1.75⟩ 0 0 0 ⟨-2, 4.1, 0⟩),
        MeshKind.cylinder),
       (some (GLEvent.setMat4Model ⟨1.75, 0.5, 1.75⟩ 0 0 0 ⟨-2, 4.95, 0⟩),
        MeshKind.taperedCylinder),
       (some (GLEvent.setMat4Model ⟨1, 1, 3⟩ 90 0 0 ⟨-2, 5.40, 0⟩),
        MeshKind.torus),
       (some (GLEvent.setMat4Model ⟨3.95, 2.60, 2.30⟩ 0 (-20) 0 ⟨6.5, 1.25, 0⟩),
        MeshKind.box),
       (some (GLEvent.setMat4Model ⟨2.35, 3.95, 4.5⟩ (-90) 0 (-110) ⟨6.5, 4.55, 0⟩),
        MeshKind.prism),
       (some (GLEvent.setMat4Model ⟨1.2, 0, 1.6⟩ 78 (-5) 20 ⟨6.2, 4.5, 0.65⟩),
        MeshKind.plane),
       (some (GLEvent.setMat4Model ⟨0.4, 0, 0.15⟩ 78 (-5) 20 ⟨4.9, 6.25, -0.3⟩),
        MeshKind.plane),
       (some (GLEvent.setMat4Model ⟨0.4, 0, 0.15⟩ 78 (-5) 20 ⟨7.91, 6.25, 0.72⟩),
        MeshKind.plane),
       (some (GLEvent.setMat4Model ⟨2, 2, 2⟩ 0 45 0 ⟨3, 1, 2⟩),
        MeshKind.box),
       (some (GLEvent.setMat4Model ⟨1, 1, 1⟩ 90 0 135 ⟨3.75, 1, 2.71⟩),
        MeshKind.plane),
       (some (GLEvent.setMat4Model ⟨1, 1, 1⟩ 0 45 0 ⟨3, 2.01, 2⟩),
        MeshKind.plane)] := by
  refine ⟨fun material0 => ⟨rfl, rfl⟩, by rfl, by decide, by rfl, by rfl⟩

/-- Witness for C4: the fourteenth draw of the script (the bag top) is
one of the six primitive mesh kinds. -/
theorem renderScene_scripted_sequence_spec_witness :
    MeshKind.prism = MeshKind.plane ∨ MeshKind.prism = MeshKind.cylinder ∨
    MeshKind.prism = MeshKind.taperedCylinder ∨
    MeshKind.prism = MeshKind.torus ∨ MeshKind.prism = MeshKind.box ∨
    MeshKind.prism = MeshKind.prism :=
  renderScene_scripted_sequence_spec.2.2.1 MeshKind.prism (by decide)

/-! ## Input-independence of the render pass -/

/-- Transform pushes contain no draw event. -/
lemma drawKinds_setTransformations (hasShader : Bool) (sc : Vec3)
    (x y z : ℚ) (p : Vec3) :
    (setTransformations hasShader sc x y z p).filterMap drawKindOf? = [] := by
  cases hasShader <;> rfl

/-- Color pushes contain no draw event. -/
lemma drawKinds_setShaderColor (hasShader : Bool) (r g b a : ℚ) :
    (setShaderColor hasShader r g b a).filterMap drawKindOf? = [] := by
  cases hasShader <;> rfl

/-- Texture selection contains no draw event. -/
lemma drawKinds_setShaderTexture (hasShader : Bool) (s : SceneState)
    (tag : String) :
    (setShaderTexture hasShader s tag).filterMap drawKindOf? = [] := by
  cases hasShader <;> rfl

/-- UV-scale pushes contain no draw event. -/
lemma drawKinds_setTextureUVScale (hasShader : Bool) (u v : ℚ) :
    (setTextureUVScale hasShader u v).filterMap drawKindOf? = [] := by
  cases hasShader <;> rfl

/-- Material pushes contain no draw event. -/
lemma drawKinds_setShaderMaterial (mats : List OBJECT_MATERIAL)
    (tag : String) (material0 : OBJECT_MATERIAL) :
    (setShaderMaterial mats tag material0).filterMap drawKindOf? = [] := by
  simp only [setShaderMaterial]
  split
  · split <;> rfl
  · rfl

/-- C8: rendering is deterministic and input-independent.  Runs from
equal prepared states (including equal stack garbage in the local
material variable) emit identical event traces; from the nominal
prepared state the whole trace is one fixed constant independent of the
indeterminate local; and from ANY state whatsoever — whatever the
registries hold and whether or not the shader is attached — the sequence
of mesh draw calls is the same fixed twenty-draw script: no branch
depends on runtime input or prior rendering outcomes. -/
theorem renderScene_deterministic_spec :
    (∀ (hasShader : Bool) (s1 s2 : SceneState)
        (m1 m2 : OBJECT_MATERIAL), s1 = s2 → m1 = m2 →
        renderScene hasShader s1 m1 = renderScene hasShader s2 m2) ∧
    (∀ material0 : OBJECT_MATERIAL,
        renderScene true nominalPrepared material0 = sceneTrace) ∧
    (∀ (hasShader : Bool) (s : SceneState) (material0 : OBJECT_MATERIAL),
        (renderScene hasShader s material0).filterMap drawKindOf? =
          sceneDrawKinds) := by
  refine ⟨?_, fun material0 => rfl, ?_⟩
  · intro hasShader s1 s2 m1 m2 hs hm
    rw [hs, hm]
  · intro hasShader s material0
    simp only [renderScene, renderCounter, renderWall, renderMug,
      renderCandle, renderBag, renderRubiks, List.filterMap_append,
      drawKinds_setTransformations, drawKinds_setShaderColor,
      drawKinds_setShaderTexture, drawKinds_setTextureUVScale,
      drawKinds_setShaderMaterial, List.nil_append, List.append_nil]
    rfl

/-- Witness for C8: two runs from the nominal prepared state with the
same local-material garbage produce the same trace. -/
theorem renderScene_deterministic_spec_witness :
    renderScene true nominalPrepared materialZero =
      renderScene true nominalPrepared materialZero :=
  renderScene_deterministic_spec.1 true nominalPrepared nominalPrepared
    materialZero materialZero rfl rfl

/-! ## The texture "destroy" loop -/

/-- Behaviour of the `DestroyGLTextures` loop: starting at index `i` with
`remaining` iterations left, it preserves the count, the material list,
every tag and every slot outside `[i, i + remaining)`, overwrites the
`ID` of slot `i + k` with the `k`-th freshly allocated name, returns the
allocator advanced by `remaining`, and emits exactly the `glGenTextures`
calls. -/
lemma destroyLoop_spec :
    ∀ (remaining : Nat) (s : SceneState) (gl : GLState) (i : Nat),
      (destroyLoop s gl i remaining).1.m_loadedTextures = s.m_loadedTextures ∧
      (destroyLoop s gl i remaining).1.m_objectMaterials = s.m_objectMaterials ∧
      (∀ j, j < i ∨ i + remaining ≤ j →
          (destroyLoop s gl i remaining).1.m_textureIDs j = s.m_textureIDs j) ∧
      (∀ j, i ≤ j → j < i + remaining →
          (destroyLoop s gl i remaining).1.m_textureIDs j =
            { s.m_textureIDs j with ID := gl.nextTexName + (j - i) }) ∧
      (destroyLoop s gl i remaining).2.1 = ⟨gl.nextTexName + remaining⟩ ∧
      (destroyLoop s gl i remaining).2.2 =
        (List.range remaining).map
          (fun k => GLEvent.glGenTexturesCall (gl.nextTexName + k)) := by
  intro remaining
  induction remaining with
  | zero =>
      intro s gl i
      refine ⟨rfl, rfl, fun j _ => rfl, fun j h1 h2 => by omega, ?_, rfl⟩
      cases gl
      rfl
  | succ n ih =>
      intro s gl i
      simp only [destroyLoop, glGenTextures]
      obtain ⟨hcount, hmats, hout, hin, hgl, htrace⟩ :=
        ih { s with m_textureIDs := fun j =>
              if j = i then { s.m_textureIDs i with ID := gl.nextTexName }
              else s.m_textureIDs j } ⟨gl.nextTexName + 1⟩ (i + 1)
      refine ⟨hcount, hmats, ?_, ?_, ?_, ?_⟩
      · intro j hj
        have hj2 : j < i + 1 ∨ i + 1 + n ≤ j := by omega
        rw [hout j hj2]
        have : ¬j = i := by omega
        simp only [this, if_false]
      · intro j hij hjn
        by_cases hji : j = i
        · subst hji
          have hju : j < j + 1 ∨ j + 1 + n ≤ j := Or.inl (by omega)
          rw [hout j hju]
          simp
        · have hj2 : i + 1 ≤ j := by omega
          rw [hin j hj2 (by omega)]
          have : gl.nextTexName + 1 + (j - (i + 1)) = gl.nextTexName + (j - i) := by
            omega
          simp only [hji, if_false, this]
      · rw [hgl]
        have : gl.nextTexName + 1 + n = gl.nextTexName + (n + 1) := by omega
        rw [this]
      · rw [htrace, List.range_succ_eq_map, List.map_cons, List.map_map]
        have hfun : ((fun k => GLEvent.glGenTexturesCall (gl.nextTexName + k)) ∘
            Nat.succ) =
            (fun k => GLEvent.glGenTexturesCall (gl.nextTexName + 1 + k)) := by
          funext k
          have : gl.nextTexName + Nat.succ k = gl.nextTexName + 1 + k := by omega
          simp only [Function.comp, this]
        rw [hfun]
        simp

/-- C9: `DestroyGLTextures` removes no registry entry and frees no
texture memory: it leaves `m_loadedTextures` and every tag unchanged,
overwrites the `ID` of every loaded slot `j` with the `j`-th freshly
generated texture name, leaves slots beyond the count untouched, and its
trace consists solely of `glGenTextures` calls — it never calls
`glDeleteTextures`. -/
theorem destroyGLTextures_regenerates_spec (s : SceneState) (gl : GLState)
    (r : SceneState × GLState × List GLEvent)
    (hr : r = destroyGLTextures s gl) :
    r.1.m_loadedTextures = s.m_loadedTextures ∧
    (∀ j, (r.1.m_textureIDs j).tag = (s.m_textureIDs j).tag) ∧
    (∀ j, j < s.m_loadedTextures →
        (r.1.m_textureIDs j).ID = gl.nextTexName + j) ∧
    (∀ j, s.m_loadedTextures ≤ j → r.1.m_textureIDs j = s.m_textureIDs j) ∧
    (∀ id, GLEvent.glDeleteTexturesCall id ∉ r.2.2) ∧
    r.2.2 = (List.range s.m_loadedTextures).map
      (fun k => GLEvent.glGenTexturesCall (gl.nextTexName + k)) := by
  subst hr
  unfold destroyGLTextures
  obtain ⟨hcount, _, hout, hin, _, htrace⟩ :=
    destroyLoop_spec s.m_loadedTextures s gl 0
  refine ⟨hcount, ?_, ?_, ?_, ?_, htrace⟩
  · intro j
    by_cases hj : j < s.m_loadedTextures
    · rw [hin j (Nat.zero_le j) (by omega)]
    · rw [hout j (Or.inr (by omega))]
  · intro j hj
    rw [hin j (Nat.zero_le j) (by omega)]
    simp only [Nat.sub_zero]
  · intro j hj
    exact hout j (Or.inr (by omega))
  · intro id hmem
    rw [htrace] at hmem
    rcases List.mem_map.mp hmem with ⟨k, _, hk⟩
    cases hk

/-- Witness for C9 on the nominal prepared registry with a fresh
allocator: the count stays 10 and slot 3 gets the new name 103. -/
theorem destroyGLTextures_regenerates_spec_witness :
    (destroyGLTextures nominalPrepared ⟨100⟩).1.m_loadedTextures =
      nominalPrepared.m_loadedTextures ∧
    ((destroyGLTextures nominalPrepared ⟨100⟩).1.m_textureIDs 3).ID =
      100 + 3 := by
  have h := destroyGLTextures_regenerates_spec nominalPrepared ⟨100⟩ _ rfl
  exact ⟨h.1, h.2.2.1 3 (by decide)⟩

/-! ## Bounds on the texture-loading sequence -/

/-- One `CreateGLTexture` call bumps the count by at most one and writes,
if anything, only the slot at the old count. -/
lemma createGLTexture_count_and_writes (env : String → Option Image)
    (filename tag : String) (s : SceneState) (gl : GLState) :
    ((createGLTexture env filename tag s gl).state.m_loadedTextures =
        s.m_loadedTextures ∨
     (createGLTexture env filename tag s gl).state.m_loadedTextures =
        s.m_loadedTextures + 1) ∧
    (∀ i ∈ (createGLTexture env filename tag s gl).writes,
        i = s.m_loadedTextures) := by
  rcases henv : env filename with _ | image
  · simp [createGLTexture, henv]
  · simp only [createGLTexture, henv, glGenTextures]
    by_cases h3 : image.colorChannels = 3
    · simp [h3]
    · by_cases h4 : image.colorChannels = 4
      · simp [h3, h4]
      · simp [h3, h4]

/-- The ten (filename, tag) pairs loaded by `LoadSceneTextures`, in
order. -/
def scenePairs : List (String × String) :=
  [("../../Utilities/textures/granite1.jpg", "counter"),
   ("../../Utilities/textures/tiles.jpg", "wall"),
   ("../../Utilities/textures/Rubiks_white.jpg", "box_white"),
   ("../../Utilities/textures/Rubiks_red.jpg", "box_red"),
   ("../../Utilities/textures/Rubiks_blue.jpg", "box_blue"),
   ("../../Utilities/textures/cardboard.jpg", "paperbag"),
   ("../../Utilities/textures/wood.jpg", "bagclip"),
   ("../../Utilities/textures/bagtag.jpg", "label"),
   ("../../Utilities/textures/wax.jpg", "candlewax"),
   ("../../Utilities/textures/ceramic.jpg", "mug")]

/-- Sequential composition of `CreateGLTexture` calls (state, allocator
and accumulated write indices), used to reason uniformly about the
ten-call sequence of `LoadSceneTextures`. -/
def createChain (env : String → Option Image) :
    List (String × String) → SceneState → GLState →
      SceneState × GLState × List Nat
  | [], s, gl => (s, gl, [])
  | (filename, tag) :: rest, s, gl =>
      ((createChain env rest (createGLTexture env filename tag s gl).state
          (createGLTexture env filename tag s gl).gl).1,
       (createChain env rest (createGLTexture env filename tag s gl).state
          (createGLTexture env filename tag s gl).gl).2.1,
       (createGLTexture env filename tag s gl).writes ++
         (createChain env rest (createGLTexture env filename tag s gl).state
            (createGLTexture env filename tag s gl).gl).2.2)

/-- A chain of `calls` loads grows the count by at most `calls.length`
and only ever writes slots between the initial and final counts. -/
lemma createChain_spec (env : String → Option Image) :
    ∀ (calls : List (String × String)) (s : SceneState) (gl : GLState),
      s.m_loadedTextures ≤ (createChain env calls s gl).1.m_loadedTextures ∧
      (createChain env calls s gl).1.m_loadedTextures ≤
        s.m_loadedTextures + calls.length ∧
      (∀ i ∈ (createChain env calls s gl).2.2,
          s.m_loadedTextures ≤ i ∧ i < s.m_loadedTextures + calls.length) := by
  intro calls
  induction calls with
  | nil =>
      intro s gl
      exact ⟨Nat.le_refl _, by simp [createChain], by simp [createChain]⟩
  | cons call rest ih =>
      intro s gl
      obtain ⟨filename, tag⟩ := call
      obtain ⟨hcall, hwrites⟩ :=
        createGLTexture_count_and_writes env filename tag s gl
      obtain ⟨hlo, hhi, hw⟩ :=
        ih (createGLTexture env filename tag s gl).state
          (createGLTexture env filename tag s gl).gl
      refine ⟨?_, ?_, ?_⟩
      · simp only [createChain]
        omega
      · simp only [createChain, List.length_cons]
        omega
      · intro i hi
        simp only [createChain, List.mem_append] at hi
        rcases hi with hi | hi
        · have := hwrites i hi
          simp only [List.length_cons]
          omega
        · have := hw i hi
          simp only [List.length_cons]
          omega

/-- The state and write list produced by `LoadSceneTextures` coincide
with the generic chain over `scenePairs`. -/
lemma loadSceneTextures_eq_chain (env : String → Option Image)
    (s : SceneState) (gl : GLState) :
    (loadSceneTextures env s gl).1 = (createChain env scenePairs s gl).1 ∧
    (loadSceneTextures env s gl).2.2.2 =
      (createChain env scenePairs s gl).2.2 := by
  constructor
  · rfl
  · simp [loadSceneTextures, scenePairs, createChain]

/-- Concatenating two-element blocks over `List.range n` yields a list of
length `2 * n`. -/
lemma flatMap_pairs_length (a b : Nat → GLEvent) :
    ∀ n, ((List.range n).flatMap (fun j => [a j, b j])).length = 2 * n := by
  intro n
  induction n with
  | zero => rfl
  | succ m ih =>
      rw [List.range_succ, List.flatMap_append, List.length_append, ih]
      simp
      omega

/-- Indexing into the concatenation of two-element blocks over
`List.range n`: position `2 * i` holds `a i` and position `2 * i + 1`
holds `b i`. -/
lemma flatMap_pairs_getElem (a b : Nat → GLEvent) :
    ∀ n i, i < n →
      ((List.range n).flatMap (fun j => [a j, b j]))[2 * i]? = some (a i) ∧
      ((List.range n).flatMap (fun j => [a j, b j]))[2 * i + 1]? = some (b i) := by
  intro n
  induction n with
  | zero => intro i h; omega
  | succ m ih =>
      intro i h
      have hlen := flatMap_pairs_length a b m
      rw [List.range_succ, List.flatMap_append]
      by_cases him : i < m
      · constructor
        · rw [List.getElem?_append_left (by rw [hlen]; omega)]
          exact (ih i him).1
        · rw [List.getElem?_append_left (by rw [hlen]; omega)]
          exact (ih i him).2
      · have him2 : i = m := by omega
        subst him2
        constructor
        · rw [List.getElem?_append_right (by rw [hlen])]
          rw [hlen, Nat.sub_self]
          rfl
        · rw [List.getElem?_append_right (by rw [hlen]; omega)]
          rw [hlen, show 2 * i + 1 - 2 * i = 1 by omega]
          rfl

/-- C7: under the program's only loading sequence — the ten
`CreateGLTexture` calls of `LoadSceneTextures` — every registry write
performed by a successful load lands at an index below the fixed 16-slot
capacity of `m_textureIDs` (indeed `m_loadedTextures` is at most 10
afterwards), and `BindGLTextures` then binds the texture registered in
slot `i` to texture unit `GL_TEXTURE0 + i` for every `i` below
`m_loadedTextures`. -/
theorem loadSceneTextures_bounds_and_bind_spec
    (env : String → Option Image) (s : SceneState) (gl : GLState)
    (r : SceneState × GLState × List GLEvent × List Nat)
    (h0 : s.m_loadedTextures = 0) (hr : r = loadSceneTextures env s gl) :
    (∀ i ∈ r.2.2.2, i < textureSlotCapacity) ∧
    r.1.m_loadedTextures ≤ 10 ∧
    (∀ i, i < r.1.m_loadedTextures →
        (bindGLTextures r.1)[2 * i]? =
          some (GLEvent.glActiveTexture (GL_TEXTURE0 + i)) ∧
        (bindGLTextures r.1)[2 * i + 1]? =
          some (GLEvent.glBindTexture2D (r.1.m_textureIDs i).ID)) := by
  subst hr
  obtain ⟨hstate, hwrites⟩ := loadSceneTextures_eq_chain env s gl
  obtain ⟨_, hhi, hw⟩ := createChain_spec env scenePairs s gl
  refine ⟨?_, ?_, ?_⟩
  · intro i hi
    rw [hwrites] at hi
    have := hw i hi
    rw [h0] at this
    simp only [scenePairs, List.length_cons, List.length_nil] at this
    unfold textureSlotCapacity
    omega
  · rw [hstate, h0] at *
    simpa [scenePairs] using hhi
  · intro i hi
    exact flatMap_pairs_getElem
      (fun k => GLEvent.glActiveTexture (GL_TEXTURE0 + k))
      (fun k => GLEvent.glBindTexture2D
        (((loadSceneTextures env s gl).1.m_textureIDs k).ID))
      (loadSceneTextures env s gl).1.m_loadedTextures i hi

/-- Witness for C7: the nominal load from the fresh manager ends with
exactly 10 textures and binds slot 9 (the mug, texture name 10) to
texture unit `GL_TEXTURE0 + 9`. -/
theorem loadSceneTextures_bounds_and_bind_spec_witness :
    (loadSceneTextures nominalEnv initialState initialGL).1.m_loadedTextures ≤ 10 ∧
    (bindGLTextures (loadSceneTextures nominalEnv initialState initialGL).1)[2 * 9 + 1]? =
      some (GLEvent.glBindTexture2D
        (((loadSceneTextures nominalEnv initialState initialGL).1.m_textureIDs 9).ID)) := by
  have h := loadSceneTextures_bounds_and_bind_spec nominalEnv initialState
    initialGL _ rfl rfl
  exact ⟨h.2.1, (h.2.2 9 (by decide)).2⟩

end SceneManager
